import Mathlib

/-!
Verification of the lazy-attribute library in `src/lazier.py`.

The file shallowly embeds the Python module: Python values that appear in the
claims become the inductive type `Value`, instance dictionaries become
association lists, the descriptor produced by `lazy` becomes the structure
`Descr`, and its `__get__` function (`getter` in the source) becomes the
fuelled function `getter` below (fuel models Python's call stack; `none`
means the call never returns, i.e. unbounded recursion).
-/

set_option autoImplicit false

namespace Lazier

/-- Python values that the claims exercise.  `volatile` is the module-level
`VOLATILE = Singleton('VOLATILE')` object: `Singleton` subclasses `str`, so the
sentinel is a distinct object (its own constructor here, which models `is`
identity) while Python `==` still compares it to plain strings by content
(see `pyEq`). -/
inductive Value where
  | int (n : Int)
  | bool (b : Bool)
  | str (s : String)
  | volatile
deriving DecidableEq

/-- Embedding of the module-level sentinel `VOLATILE` (src/lazier.py line 116). -/
def VOLATILE : Value := Value.volatile

/-- Exceptions raised by the embedded code paths. -/
inductive PyErr where
  | typeError (msg : String)
  | valueError (msg : String)
  | attributeError (msg : String)
deriving DecidableEq

/-- Wrap a string in single quotes the way Python `repr` renders strings. -/
def q (s : String) : String := "\x27" ++ s ++ "\x27"

/-- Python `repr` restricted to the modelled values (used by `%r` formatting
in the source's error messages). -/
def pyRepr : Value → String
  | .int n => toString n
  | .bool b => if b then "True" else "False"
  | .str s => q s
  | .volatile => q "VOLATILE"

/-- The Python types that appear as `require=<type>` arguments in the claims.
`bool` is a subclass of `int`, and the sentinel's class `Singleton` is a
subclass of `str`. -/
inductive PyType where
  | int
  | str
  | bool
deriving DecidableEq

/-- Python `type.__name__` for the modelled types. -/
def typeName : PyType → String
  | .int => "int"
  | .str => "str"
  | .bool => "bool"

/-- Python `isinstance` restricted to the modelled values and types. -/
def isinstance : Value → PyType → Bool
  | .int _, .int => true
  | .bool _, .int => true
  | .bool _, .bool => true
  | .str _, .str => true
  | .volatile, .str => true
  | _, _ => false

/-- Python `==` restricted to the modelled values.  `True == 1` holds because
`bool` subclasses `int`, and the sentinel compares equal to the plain string
`"VOLATILE"` because `Singleton` subclasses `str` and inherits its content
comparison. -/
def pyEq : Value → Value → Bool
  | .int n, .int m => n == m
  | .int n, .bool b => n == (if b then 1 else 0)
  | .bool b, .int m => (if b then (1 : Int) else 0) == m
  | .bool a, .bool b => a == b
  | .str s, .str t => s == t
  | .str s, .volatile => s == "VOLATILE"
  | .volatile, .str t => "VOLATILE" == t
  | .volatile, .volatile => true
  | _, _ => false

/-- An instance `__dict__`: association list from attribute names to values. -/
abbrev Dict := List (String × Value)

/-- First-match lookup in an association list (attribute dictionary lookup). -/
def lookupD {α : Type} : List (String × α) → String → Option α
  | [], _ => none
  | (k, v) :: rest, key => if k = key then some v else lookupD rest key

/-- Python `setattr`: replace the binding for `k` or append a fresh one. -/
def insertD : Dict → String → Value → Dict
  | [], k, v => [(k, v)]
  | (k0, v0) :: rest, k, v =>
      if k0 = k then (k, v) :: rest else (k0, v0) :: insertD rest k v

/-- Python `delattr`: drop every binding for `k`. -/
def removeD : Dict → String → Dict
  | [], _ => []
  | (k0, v0) :: rest, k =>
      if k0 = k then removeD rest k else (k0, v0) :: removeD rest k

/-- A Python function used as a value producer or plain method.  `name` is its
`__name__`; `fn` receives the instance `__dict__` (or `none` when the function
is invoked with `self = None`, as happens on class-level descriptor access)
and returns a value or raises. -/
structure PyFunc where
  name : String
  fn : Option Dict → Except PyErr Value

/-- A user callable passed as a non-type `require=` argument; `name` is its
`__name__`, used in the validation error message. -/
structure PyCallable where
  name : String
  call : Value → Value

/-- Embedding of `type_checker` (src/lazier.py lines 213-219). -/
def type_checker (isa : PyType) : Value → Except PyErr Value := fun obj =>
  if isinstance obj isa then Except.ok obj
  else Except.error (PyErr.typeError (pyRepr obj ++ " is not a " ++ q (typeName isa)))

/-- Embedding of `requirement_checker` (src/lazier.py lines 221-227).  The
source tests `requirement(obj) is False`, identity with the `False` singleton,
which `Value.bool false` models. -/
def requirement_checker (req : PyCallable) : Value → Except PyErr Value := fun obj =>
  if req.call obj = Value.bool false then
    Except.error (PyErr.valueError (pyRepr obj ++ " did not pass " ++ q req.name))
  else Except.ok obj

/-- The `prepare` closure assembled in `lazy` (src/lazier.py lines 157-168).
`fn` is a plain prepare function (a requirement checker alone, or the `into`
conversion alone).  `selfComposed into` is the value of `prepare` after line
168, `prepare = lambda o: into(prepare(o))`: the lambda's free variable
`prepare` resolves through the enclosing scope to the lambda itself, so the
requirement checker it was meant to compose with is unreachable and calling
the lambda re-enters itself forever. -/
inductive Prepare where
  | fn (p : Value → Except PyErr Value)
  | selfComposed (into : Value → Except PyErr Value)

/-- Run a `prepare` step with fuel; `none` models a call that never returns. -/
def runPrepare : Option Prepare → Nat → Value → Option (Except PyErr Value)
  | none, _, v => some (Except.ok v)
  | some (.fn p), _, v => some (p v)
  | some (.selfComposed _), 0, _ => none
  | some (.selfComposed f), fuel + 1, v =>
      match runPrepare (some (.selfComposed f)) fuel v with
      | none => none
      | some (Except.error e) => some (Except.error e)
      | some (Except.ok w) => some (f w)

/-- How the descriptor obtains its raw result (src/lazier.py lines 148-155):
either the decorated function itself, or `getattr(obj, m)()` for a method
name `m`. -/
inductive SrcSpec where
  | direct (f : PyFunc)
  | methodCall (m : String)

/-- The state captured by the descriptor's `getter` closure: the target
attribute name, the `src` function and the `prepare` step. -/
structure Descr where
  target : String
  srcSpec : SrcSpec
  prepare : Option Prepare

/-- An attribute stored on a class: either a lazy descriptor or a plain
function (an ordinary method). -/
inductive ClassAttr where
  | descr (d : Descr)
  | method (f : PyFunc)

/-- A class `__dict__` (the subclass's entries listed before the base's,
modelling method-resolution order). -/
abbrev ClassDict := List (String × ClassAttr)

/-- The `method=` argument of `lazy`: Python `True`, `False` or a method
name string (`None` is `Option.none` at the use site). -/
inductive MethodArg where
  | isTrue
  | isFalse
  | named (m : String)
deriving DecidableEq

/-- The `require=` argument of `lazy`: a type or any other callable. -/
inductive Require where
  | isa (t : PyType)
  | pred (c : PyCallable)

/-- The keyword arguments of `lazy` (src/lazier.py lines 118-119). -/
structure LazyArgs where
  name : Option String := none
  method : Option MethodArg := none
  require : Option Require := none
  into : Option (Value → Except PyErr Value) := none
  abstract : Bool := false

/-- Embedding of the callable branch of `lazy` (src/lazier.py lines 137-197):
resolve the target name, bias `method` to `True` when an explicit different
name was given, build `src`, and assemble `prepare` from `require`/`into`.
A `method=''` empty string is falsy in Python, so it selects the direct
source just as `method=False` does.  When both `require` and `into` are
given, line 168 rebinds `prepare` to a lambda that closes over itself, which
`Prepare.selfComposed` records.  The `abstract` flag only wraps the function
in `abc.abstractmethod`, which does not change read semantics. -/
def lazy (fn : PyFunc) (a : LazyArgs) : Descr :=
  let name :=
    match a.name with
    | none => fn.name
    | some n => n
  let method :=
    match a.name with
    | none => a.method
    | some n =>
        if n = fn.name then a.method
        else
          match a.method with
          | none => some MethodArg.isTrue
          | m => m
  let srcSpec :=
    match method with
    | some MethodArg.isTrue => SrcSpec.methodCall fn.name
    | some (MethodArg.named m) => if m = "" then SrcSpec.direct fn else SrcSpec.methodCall m
    | some MethodArg.isFalse => SrcSpec.direct fn
    | none => SrcSpec.direct fn
  let checkPrep : Option (Value → Except PyErr Value) :=
    match a.require with
    | some (.isa t) => some (type_checker t)
    | some (.pred c) => some (requirement_checker c)
    | none => none
  let prepare : Option Prepare :=
    match a.into, checkPrep with
    | none, none => none
    | none, some p => some (Prepare.fn p)
    | some f, none => some (Prepare.fn f)
    | some f, some _ => some (Prepare.selfComposed f)
  ⟨name, srcSpec, prepare⟩

/-- The class attributes installed by using `@lazy` on `fn` in a class body.
When the target name equals the function's name the decorator's descriptor
simply replaces the function (src/lazier.py line 197).  Otherwise
`configure_class_for_lazy` (`__set_name__`, lines 203-206) installs the
descriptor under the target name and restores the original function under
its own name. -/
def lazyClassEntries (fn : PyFunc) (a : LazyArgs) : ClassDict :=
  let d := lazy fn a
  if d.target = fn.name then [(d.target, ClassAttr.descr d)]
  else [(d.target, ClassAttr.descr d), (fn.name, ClassAttr.method fn)]

/-- Python error message for attribute access on `None`. -/
def noneAttrMsg (m : String) : String :=
  q "NoneType" ++ " object has no attribute " ++ q m

/-- Python error message for a missing attribute. -/
def noAttrMsg (m : String) : String :=
  "object has no attribute " ++ q m

/-- Python error message for calling a non-callable value. -/
def notCallableMsg : String := "object is not callable"

/-- Possible outcomes of the descriptor's `__get__`: it returned the
descriptor itself (`self`), or it produced a result `r` together with the
updated instance dictionary (`none` when `__get__` ran with `obj = None`)
and the list of producing-function names invoked along the way. -/
inductive GetOut where
  | self
  | res (r : Except PyErr Value) (obj : Option Dict) (log : List String)

/-- Tail of `getter` (src/lazier.py lines 181-186): apply `prepare` to the
raw result, and unless the prepared result is the `VOLATILE` object
(identity check, line 184) store it on the instance under the target name.
`setattr(None, ...)` — which happens when `__get__` ran with `obj = None` —
raises `AttributeError`. -/
def getterFinish (t : String) (p : Option Prepare) (fuel : Nat) :
    Option (Except PyErr Value × Option Dict × List String) → Option GetOut
  | none => none
  | some (Except.error e, o2, log) => some (GetOut.res (Except.error e) o2 log)
  | some (Except.ok v, o2, log) =>
      match runPrepare p fuel v with
      | none => none
      | some (Except.error e) => some (GetOut.res (Except.error e) o2 log)
      | some (Except.ok w) =>
          if w = VOLATILE then some (GetOut.res (Except.ok w) o2 log)
          else
            match o2 with
            | some o3 => some (GetOut.res (Except.ok w) (some (insertD o3 t w)) log)
            | none =>
                some (GetOut.res (Except.error (PyErr.attributeError (noneAttrMsg t))) none log)

/-- Embedding of `getter` (src/lazier.py lines 171-186), the `__get__` of the
descriptor: with no class argument it returns the descriptor itself; else it
evaluates `src` — the direct function, or `getattr(obj, m)()`, whose method
lookup consults the instance dictionary, then the class, where hitting a
descriptor re-enters `getter` — and hands the result to `getterFinish`.
Fuel bounds the recursion depth; `none` models a call that never returns. -/
def getter (clsD : ClassDict) : Nat → Descr → Option Dict → Option Unit → Option GetOut
  | 0, _, _, _ => none
  | _ + 1, _, _, none => some GetOut.self
  | fuel + 1, d, obj, some _ =>
      getterFinish d.target d.prepare fuel
        (match d.srcSpec, obj with
         | .direct f, _ => some (f.fn obj, obj, [f.name])
         | .methodCall m, none =>
             some (Except.error (PyErr.attributeError (noneAttrMsg m)), none, [])
         | .methodCall m, some o =>
             match lookupD o m with
             | some _ => some (Except.error (PyErr.typeError notCallableMsg), some o, [])
             | none =>
                 match lookupD clsD m with
                 | some (ClassAttr.method f) => some (f.fn (some o), some o, [f.name])
                 | some (ClassAttr.descr d2) =>
                     match getter clsD fuel d2 (some o) (some ()) with
                     | none => none
                     | some GetOut.self => none
                     | some (GetOut.res (Except.ok _) o2 log) =>
                         some (Except.error (PyErr.typeError notCallableMsg), o2, log)
                     | some (GetOut.res (Except.error e) o2 log) =>
                         some (Except.error e, o2, log)
                 | none =>
                     some (Except.error (PyErr.attributeError (noAttrMsg m)), some o, []))

/-- Python instance attribute read `obj.name` for the modelled layout: the
instance dictionary wins (the lazy descriptor defines no `__set__`, so it is
a non-data descriptor); otherwise a class-level descriptor's `__get__` runs
with both the instance and the class, per the descriptor protocol.  Reading
a plain method would yield a bound-method object, which is outside `Value`
and unused by any claim, so it is left unmodelled (`none`). -/
def readAttr (clsD : ClassDict) (fuel : Nat) (obj : Dict) (name : String) :
    Option (Except PyErr Value × Dict × List String) :=
  match lookupD obj name with
  | some v => some (Except.ok v, obj, [])
  | none =>
      match lookupD clsD name with
      | some (ClassAttr.descr d) =>
          match getter clsD fuel d (some obj) (some ()) with
          | none => none
          | some GetOut.self => none
          | some (GetOut.res r o2 log) => some (r, o2.getD obj, log)
      | some (ClassAttr.method _) => none
      | none => some (Except.error (PyErr.attributeError (noAttrMsg name)), obj, [])

/-- Python call `obj.m()` as `src` performs it (`getattr(obj, m)()`): values
found on the instance are not callable; a class-level plain function is
invoked bound to the instance; a class-level descriptor first runs its
`__get__`, and whatever value that yields is not callable. -/
def callAttr (clsD : ClassDict) (fuel : Nat) (o : Dict) (m : String) :
    Option (Except PyErr Value × Dict × List String) :=
  match lookupD o m with
  | some _ => some (Except.error (PyErr.typeError notCallableMsg), o, [])
  | none =>
      match lookupD clsD m with
      | some (ClassAttr.method f) => some (f.fn (some o), o, [f.name])
      | some (ClassAttr.descr d2) =>
          match getter clsD fuel d2 (some o) (some ()) with
          | none => none
          | some GetOut.self => none
          | some (GetOut.res (Except.ok _) o2 log) =>
              some (Except.error (PyErr.typeError notCallableMsg), o2.getD o, log)
          | some (GetOut.res (Except.error e) o2 log) => some (Except.error e, o2.getD o, log)
      | none => some (Except.error (PyErr.attributeError (noAttrMsg m)), o, [])

/-- Python class attribute read `Cls.name` when `name` holds a descriptor:
`type.__getattribute__` invokes `descr.__get__(None, Cls)` — the instance
argument is `None` and the class argument is present, so `getter` takes its
`else` branch rather than returning the descriptor.  Only descriptor
attributes are modelled. -/
def classReadAttr (clsD : ClassDict) (fuel : Nat) (name : String) : Option GetOut :=
  match lookupD clsD name with
  | some (ClassAttr.descr d) => getter clsD fuel d none (some ())
  | _ => none

/-- A producing function ignoring `self`, like `def x(self): return v`. -/
def constFn (nm : String) (v : Value) : PyFunc := ⟨nm, fun _ => Except.ok v⟩

/-- Parse a non-empty run of decimal digits. -/
def parseDigitsAux : List Char → Nat → Option Nat
  | [], acc => some acc
  | c :: rest, acc =>
      if c.isDigit then parseDigitsAux rest (acc * 10 + (c.toNat - 48)) else none

/-- Parse a decimal integer literal the way Python `int(<str>)` accepts it
(optional sign, then digits). -/
def parseIntStr (s : String) : Option Int :=
  match s.data with
  | [] => none
  | '-' :: c :: rest =>
      (parseDigitsAux (c :: rest) 0).map (fun n => -(n : Int))
  | '+' :: c :: rest => (parseDigitsAux (c :: rest) 0).map (fun n => (n : Int))
  | c :: rest =>
      if c.isDigit then (parseDigitsAux (c :: rest) 0).map (fun n => (n : Int)) else none

/-- Embedding of Python `int(...)` on the modelled values, the `into=int`
conversion of the doctests. -/
def pyIntFn : Value → Except PyErr Value
  | .int n => Except.ok (.int n)
  | .bool b => Except.ok (.int (if b then 1 else 0))
  | .str s =>
      match parseIntStr s with
      | some n => Except.ok (.int n)
      | none =>
          Except.error (PyErr.valueError ("invalid literal for int() with base 10: " ++ q s))
  | .volatile =>
      Except.error (PyErr.valueError ("invalid literal for int() with base 10: " ++ q "VOLATILE"))

/-! Dictionary lemmas. -/

@[simp]
theorem lookupD_insertD_self (l : Dict) (k : String) (v : Value) :
    lookupD (insertD l k v) k = some v := by
  induction l with
  | nil => simp [insertD, lookupD]
  | cons hd tl ih =>
      obtain ⟨k0, v0⟩ := hd
      by_cases h : k0 = k <;> simp [insertD, lookupD, h, ih]

theorem lookupD_insertD_ne (l : Dict) (k k' : String) (v : Value) (h : k' ≠ k) :
    lookupD (insertD l k v) k' = lookupD l k' := by
  have h' : ¬(k = k') := fun hh => h hh.symm
  induction l with
  | nil => simp [insertD, lookupD, h']
  | cons hd tl ih =>
      obtain ⟨k0, v0⟩ := hd
      by_cases hk : k0 = k
      · subst hk
        simp [insertD, lookupD, h']
      · simp [insertD, lookupD, hk, ih]

theorem removeD_insertD (l : Dict) (k : String) (v : Value) (h : lookupD l k = none) :
    removeD (insertD l k v) k = l := by
  induction l with
  | nil => simp [insertD, removeD]
  | cons hd tl ih =>
      obtain ⟨k0, v0⟩ := hd
      by_cases hk : k0 = k
      · simp [lookupD, hk] at h
      · simp [lookupD, hk] at h
        simp [insertD, removeD, hk, ih h]

/-! Reduction lemmas for the `lazy` builder. -/

theorem lazy_default (f : PyFunc) : lazy f {} = ⟨f.name, SrcSpec.direct f, none⟩ := rfl

theorem lazyClassEntries_default (f : PyFunc) :
    lazyClassEntries f {} = [(f.name, ClassAttr.descr ⟨f.name, SrcSpec.direct f, none⟩)] := by
  simp [lazyClassEntries, lazy_default]

/-- Reads through a one-entry class dictionary holding a direct-source
descriptor under the producing function's own name: the shape installed by
the basic `@lazy` form. -/
theorem readAttr_default_direct (f : PyFunc) (obj : Dict) (v : Value) (fuel : Nat)
    (hfn : f.fn (some obj) = Except.ok v) (hv : v ≠ VOLATILE)
    (hfresh : lookupD obj f.name = none) :
    readAttr (lazyClassEntries f {}) (fuel + 1) obj f.name
      = some (Except.ok v, insertD obj f.name v, [f.name]) := by
  have hv' : ¬(v = Value.volatile) := hv
  rw [lazyClassEntries_default]
  simp [readAttr, hfresh, lookupD, getter, getterFinish, runPrepare, hfn, hv, hv']

/-- C1: for a producing function `f`, the first read of the lazy attribute
invokes `f` exactly once (invocation log `[f.name]`) and stores the result
on the instance under the target name; a second read finds the stored value
with zero further invocations; deleting the stored attribute and reading
again re-invokes `f` and re-caches. -/
theorem C1_lazy_computes_once_until_deleted (f : PyFunc) (obj : Dict) (v : Value) (fuel : Nat)
    (hfn : f.fn (some obj) = Except.ok v) (hv : v ≠ VOLATILE)
    (hfresh : lookupD obj f.name = none) :
    readAttr (lazyClassEntries f {}) (fuel + 1) obj f.name
      = some (Except.ok v, insertD obj f.name v, [f.name]) ∧
    readAttr (lazyClassEntries f {}) (fuel + 1) (insertD obj f.name v) f.name
      = some (Except.ok v, insertD obj f.name v, []) ∧
    readAttr (lazyClassEntries f {}) (fuel + 1) (removeD (insertD obj f.name v) f.name) f.name
      = some (Except.ok v, insertD obj f.name v, [f.name]) := by
  refine ⟨readAttr_default_direct f obj v fuel hfn hv hfresh, ?_, ?_⟩
  · simp [readAttr, lookupD_insertD_self]
  · rw [removeD_insertD obj f.name v hfresh]
    exact readAttr_default_direct f obj v fuel hfn hv hfresh

/-- Witness for C1 at the doctest input `def x(self): return 'x'`. -/
theorem C1_witness :
    readAttr (lazyClassEntries (constFn "x" (Value.str "x")) {}) 1 [] "x"
      = some (Except.ok (Value.str "x"), [("x", Value.str "x")], ["x"]) ∧
    readAttr (lazyClassEntries (constFn "x" (Value.str "x")) {}) 1
        (insertD [] "x" (Value.str "x")) "x"
      = some (Except.ok (Value.str "x"), [("x", Value.str "x")], []) ∧
    readAttr (lazyClassEntries (constFn "x" (Value.str "x")) {}) 1
        (removeD (insertD [] "x" (Value.str "x")) "x") "x"
      = some (Except.ok (Value.str "x"), [("x", Value.str "x")], ["x"]) :=
  C1_lazy_computes_once_until_deleted (constFn "x" (Value.str "x")) [] (Value.str "x") 0
    rfl (by decide) rfl

/-- C2: when the producing function returns the `VOLATILE` sentinel, the read
returns the sentinel, leaves the instance dictionary untouched (nothing is
cached), and logs one invocation; since the state is unchanged, any
subsequent read is the very same computation and invokes the function
again. -/
theorem C2_volatile_never_cached (f : PyFunc) (obj : Dict) (fuel : Nat)
    (hfn : f.fn (some obj) = Except.ok VOLATILE)
    (hfresh : lookupD obj f.name = none) :
    readAttr (lazyClassEntries f {}) (fuel + 1) obj f.name
      = some (Except.ok VOLATILE, obj, [f.name]) := by
  rw [lazyClassEntries_default]
  simp [readAttr, hfresh, lookupD, getter, getterFinish, runPrepare, hfn]

/-- Witness for C2: a producing function returning the sentinel. -/
theorem C2_witness :
    readAttr (lazyClassEntries (constFn "counter" VOLATILE) {}) 1 [] "counter"
      = some (Except.ok VOLATILE, [], ["counter"]) :=
  C2_volatile_never_cached (constFn "counter" VOLATILE) [] 0 rfl rfl

/-- With an explicit target name different from the function's own name and
no `method` argument, `lazy` biases `method` to `True` (src/lazier.py lines
143-146), so the source becomes a call of the method named after the
decorated function. -/
theorem lazy_named (f : PyFunc) (n : String) (h : n ≠ f.name) :
    lazy f { name := some n } = ⟨n, SrcSpec.methodCall f.name, none⟩ := by
  simp [lazy, h]

/-- The class layout installed by `@lazy('n')` on `get_x`-style functions:
the descriptor under the target name, the original function under its own
name (src/lazier.py lines 203-206). -/
theorem lazyClassEntries_named (f : PyFunc) (n : String) (h : n ≠ f.name) :
    lazyClassEntries f { name := some n }
      = [(n, ClassAttr.descr ⟨n, SrcSpec.methodCall f.name, none⟩),
         (f.name, ClassAttr.method f)] := by
  simp [lazyClassEntries, lazy_named f n h, h]

/-- C3: for a base class declaring a lazy attribute in method-indirection
form (explicit target `n` bound to a value-producing method `f`), a subclass
that overrides that method with `g` makes the read on a subclass instance
invoke `g` (invocation log `[g.name]`, result `g`'s value, with the base
function `f` left fully unconstrained) and cache `g`'s result under `n`. -/
theorem C3_subclass_override_is_used (f g : PyFunc) (n : String) (obj : Dict) (v : Value)
    (fuel : Nat) (hn : n ≠ f.name)
    (hg : g.fn (some obj) = Except.ok v) (hv : v ≠ VOLATILE)
    (hfresh : lookupD obj n = none) (hfreshm : lookupD obj f.name = none) :
    readAttr ((f.name, ClassAttr.method g) :: lazyClassEntries f { name := some n })
        (fuel + 2) obj n
      = some (Except.ok v, insertD obj n v, [g.name]) := by
  have hn' : ¬(f.name = n) := fun hh => hn hh.symm
  have hv' : ¬(v = Value.volatile) := hv
  rw [lazyClassEntries_named f n hn]
  simp [readAttr, hfresh, hfreshm, lookupD, hn', getter, getterFinish, runPrepare, hg, hv, hv']

/-- Witness for C3 at the doctest classes `Base`/`Subclass`. -/
theorem C3_witness :
    readAttr (("get_x", ClassAttr.method (constFn "get_x" (Value.str "x from sub_x")))
        :: lazyClassEntries (constFn "get_x" (Value.str "x from base_x")) { name := some "x" })
        2 [] "x"
      = some (Except.ok (Value.str "x from sub_x"),
          [("x", Value.str "x from sub_x")], ["get_x"]) :=
  C3_subclass_override_is_used (constFn "get_x" (Value.str "x from base_x"))
    (constFn "get_x" (Value.str "x from sub_x")) "x" [] (Value.str "x from sub_x") 0
    (by decide) rfl (by decide) rfl rfl

/-- C4: for `get_x` decorated with an explicit target name `n` distinct from
its own name, reading `obj.n` computes through the method indirection and
caches under `n`, while calling `obj.get_x()` invokes the original function
directly with no caching — both before and after the lazy value is cached,
each call runs `f` afresh on the current instance state. -/
theorem C4_named_form_keeps_method_callable (f : PyFunc) (n : String) (obj : Dict) (v : Value)
    (fuel fuel2 fuel3 : Nat) (hn : n ≠ f.name)
    (hf : f.fn (some obj) = Except.ok v) (hv : v ≠ VOLATILE)
    (hfresh : lookupD obj n = none) (hfreshm : lookupD obj f.name = none) :
    readAttr (lazyClassEntries f { name := some n }) (fuel + 2) obj n
      = some (Except.ok v, insertD obj n v, [f.name]) ∧
    callAttr (lazyClassEntries f { name := some n }) fuel2 obj f.name
      = some (f.fn (some obj), obj, [f.name]) ∧
    callAttr (lazyClassEntries f { name := some n }) fuel3 (insertD obj n v) f.name
      = some (f.fn (some (insertD obj n v)), insertD obj n v, [f.name]) := by
  have hn' : ¬(f.name = n) := fun hh => hn hh.symm
  have hv' : ¬(v = Value.volatile) := hv
  rw [lazyClassEntries_named f n hn]
  refine ⟨?_, ?_, ?_⟩
  · simp [readAttr, hfresh, hfreshm, lookupD, hn, hn', getter, getterFinish, runPrepare,
      hf, hv, hv']
  · simp [callAttr, hfreshm, lookupD, hn, hn']
  · simp [callAttr, lookupD_insertD_ne obj n f.name v (Ne.symm hn), hfreshm, lookupD, hn, hn']

/-- Witness for C4 at the doctest shape `@lazy('x') def get_x`. -/
theorem C4_witness :
    readAttr (lazyClassEntries (constFn "get_x" (Value.str "x from base_x"))
        { name := some "x" }) 2 [] "x"
      = some (Except.ok (Value.str "x from base_x"),
          [("x", Value.str "x from base_x")], ["get_x"]) ∧
    callAttr (lazyClassEntries (constFn "get_x" (Value.str "x from base_x"))
        { name := some "x" }) 1 [] "get_x"
      = some ((constFn "get_x" (Value.str "x from base_x")).fn (some []), [], ["get_x"]) ∧
    callAttr (lazyClassEntries (constFn "get_x" (Value.str "x from base_x"))
        { name := some "x" }) 1 (insertD [] "x" (Value.str "x from base_x")) "get_x"
      = some ((constFn "get_x" (Value.str "x from base_x")).fn
            (some (insertD [] "x" (Value.str "x from base_x"))),
          insertD [] "x" (Value.str "x from base_x"), ["get_x"]) :=
  C4_named_form_keeps_method_callable (constFn "get_x" (Value.str "x from base_x")) "x" []
    (Value.str "x from base_x") 0 1 1 (by decide) rfl (by decide) rfl rfl

/-- With `require=<type>` alone, `lazy` installs a `type_checker` prepare
step (src/lazier.py lines 157-158). -/
theorem lazy_require_type (f : PyFunc) (t : PyType) :
    lazy f { require := some (Require.isa t) }
      = ⟨f.name, SrcSpec.direct f, some (Prepare.fn (type_checker t))⟩ := rfl

/-- With a non-type `require=` alone, `lazy` installs a
`requirement_checker` prepare step (src/lazier.py lines 159-160). -/
theorem lazy_require_pred (f : PyFunc) (c : PyCallable) :
    lazy f { require := some (Require.pred c) }
      = ⟨f.name, SrcSpec.direct f, some (Prepare.fn (requirement_checker c))⟩ := rfl

/-- With `into=` alone, the conversion function itself is the prepare step
(src/lazier.py lines 164-166). -/
theorem lazy_into (f : PyFunc) (i : Value → Except PyErr Value) :
    lazy f { into := some i } = ⟨f.name, SrcSpec.direct f, some (Prepare.fn i)⟩ := rfl

/-- With both `require=` and `into=`, line 168 rebinds `prepare` to a lambda
whose free variable `prepare` is the lambda itself. -/
theorem lazy_require_into (f : PyFunc) (r : Require) (i : Value → Except PyErr Value) :
    lazy f { require := some r, into := some i }
      = ⟨f.name, SrcSpec.direct f, some (Prepare.selfComposed i)⟩ := by
  cases r <;> rfl

/-- When the target name is the function's own name, the decorator installs
just the descriptor (src/lazier.py line 197). -/
theorem lazyClassEntries_self (f : PyFunc) (a : LazyArgs) (h : (lazy f a).target = f.name) :
    lazyClassEntries f a = [(f.name, ClassAttr.descr (lazy f a))] := by
  simp [lazyClassEntries, h]

/-- C5: with `require=<type>`, a produced value failing `isinstance` raises
`TypeError` with a message naming the value and the expected type, caching
nothing (the dictionary is returned unchanged); a produced value of the
required type is returned and cached.  (A producing function returning the
`VOLATILE` sentinel is governed by the sentinel rule instead, hence the
non-sentinel hypothesis on the success branch.) -/
theorem C5_type_requirement (f : PyFunc) (t : PyType) (obj : Dict) (v : Value) (fuel : Nat)
    (hf : f.fn (some obj) = Except.ok v) (hfresh : lookupD obj f.name = none) :
    (isinstance v t = false →
      readAttr (lazyClassEntries f { require := some (Require.isa t) }) (fuel + 1) obj f.name
        = some (Except.error (PyErr.typeError (pyRepr v ++ " is not a " ++ q (typeName t))),
            obj, [f.name])) ∧
    (isinstance v t = true → v ≠ VOLATILE →
      readAttr (lazyClassEntries f { require := some (Require.isa t) }) (fuel + 1) obj f.name
        = some (Except.ok v, insertD obj f.name v, [f.name])) := by
  have hent := lazyClassEntries_self f { require := some (Require.isa t) } rfl
  rw [lazy_require_type] at hent
  constructor
  · intro hbad
    rw [hent]
    simp [readAttr, hfresh, lookupD, getter, getterFinish, runPrepare, hf, type_checker, hbad]
  · intro hok hv
    have hv' : ¬(v = Value.volatile) := hv
    rw [hent]
    simp [readAttr, hfresh, lookupD, getter, getterFinish, runPrepare, hf, type_checker,
      hok, hv, hv']

/-- Witness for C5 at the doctest inputs: `require=int` with `'hello'`
raises and caches nothing; with `5` it succeeds and caches. -/
theorem C5_witness :
    readAttr (lazyClassEntries (constFn "x" (Value.str "hello"))
        { require := some (Require.isa PyType.int) }) 1 [] "x"
      = some (Except.error (PyErr.typeError
            (pyRepr (Value.str "hello") ++ " is not a " ++ q (typeName PyType.int))),
          [], ["x"]) ∧
    readAttr (lazyClassEntries (constFn "x" (Value.int 5))
        { require := some (Require.isa PyType.int) }) 1 [] "x"
      = some (Except.ok (Value.int 5), [("x", Value.int 5)], ["x"]) :=
  ⟨(C5_type_requirement (constFn "x" (Value.str "hello")) PyType.int [] (Value.str "hello") 0
      rfl rfl).1 rfl,
   (C5_type_requirement (constFn "x" (Value.int 5)) PyType.int [] (Value.int 5) 0
      rfl rfl).2 rfl (by decide)⟩

/-- C6: with a non-type `require=<callable>`, a produced value on which the
callable returns `False` raises `ValueError` naming the value and the
callable, caching nothing; otherwise the produced value itself is returned
and cached unchanged (sentinel case again governed by the sentinel rule). -/
theorem C6_predicate_requirement (f : PyFunc) (c : PyCallable) (obj : Dict) (v : Value)
    (fuel : Nat) (hf : f.fn (some obj) = Except.ok v) (hfresh : lookupD obj f.name = none) :
    (c.call v = Value.bool false →
      readAttr (lazyClassEntries f { require := some (Require.pred c) }) (fuel + 1) obj f.name
        = some (Except.error (PyErr.valueError (pyRepr v ++ " did not pass " ++ q c.name)),
            obj, [f.name])) ∧
    (c.call v ≠ Value.bool false → v ≠ VOLATILE →
      readAttr (lazyClassEntries f { require := some (Require.pred c) }) (fuel + 1) obj f.name
        = some (Except.ok v, insertD obj f.name v, [f.name])) := by
  have hent := lazyClassEntries_self f { require := some (Require.pred c) } rfl
  rw [lazy_require_pred] at hent
  constructor
  · intro hbad
    rw [hent]
    simp [readAttr, hfresh, lookupD, getter, getterFinish, runPrepare, hf,
      requirement_checker, hbad]
  · intro hok hv
    have hv' : ¬(v = Value.volatile) := hv
    rw [hent]
    simp [readAttr, hfresh, lookupD, getter, getterFinish, runPrepare, hf,
      requirement_checker, hok, hv, hv']

/-- The doctest predicate `n_gt_5`: true on integers greater than five. -/
def n_gt_5 : PyCallable :=
  ⟨"n_gt_5", fun v =>
    match v with
    | .int n => Value.bool (decide (5 < n))
    | _ => Value.bool false⟩

/-- Witness for C6 at the doctest inputs: produced `3` fails `n_gt_5`,
produced `7` passes and caches `7`. -/
theorem C6_witness :
    readAttr (lazyClassEntries (constFn "x_gt_5" (Value.int 3))
        { require := some (Require.pred n_gt_5) }) 1 [] "x_gt_5"
      = some (Except.error (PyErr.valueError
            (pyRepr (Value.int 3) ++ " did not pass " ++ q "n_gt_5")),
          [], ["x_gt_5"]) ∧
    readAttr (lazyClassEntries (constFn "x_gt_5" (Value.int 7))
        { require := some (Require.pred n_gt_5) }) 1 [] "x_gt_5"
      = some (Except.ok (Value.int 7), [("x_gt_5", Value.int 7)], ["x_gt_5"]) :=
  ⟨(C6_predicate_requirement (constFn "x_gt_5" (Value.int 3)) n_gt_5 [] (Value.int 3) 0
      rfl rfl).1 rfl,
   (C6_predicate_requirement (constFn "x_gt_5" (Value.int 7)) n_gt_5 [] (Value.int 7) 0
      rfl rfl).2 (by decide) (by decide)⟩

/-- Calling the self-referential `prepare` lambda of src/lazier.py line 168
never returns, whatever the recursion budget. -/
theorem runPrepare_selfComposed (i : Value → Except PyErr Value) (fuel : Nat) (v : Value) :
    runPrepare (some (Prepare.selfComposed i)) fuel v = none := by
  induction fuel with
  | zero => rfl
  | succ n ih => simp [runPrepare, ih]

/-- C7: `into=int` alone converts before caching — the doctest `'5'` caches
the integer `5` — but combining a requirement with `into` hits the closure
slip on src/lazier.py line 168 (`prepare = lambda o: into(prepare(o))`
captures the lambda itself instead of the saved checker), so the first read
of `require=int, into=int` over a producing function returning `5` recurses
without bound: no fuel makes it return. -/
theorem C7_into_converts_but_require_into_never_returns :
    readAttr (lazyClassEntries (constFn "x_as_int" (Value.str "5"))
        { into := some pyIntFn }) 1 [] "x_as_int"
      = some (Except.ok (Value.int 5), [("x_as_int", Value.int 5)], ["x_as_int"]) ∧
    ∀ fuel,
      readAttr (lazyClassEntries (constFn "x" (Value.int 5))
          { require := some (Require.isa PyType.int), into := some pyIntFn }) fuel [] "x"
        = none := by
  constructor
  · rfl
  · intro fuel
    cases fuel with
    | zero => rfl
    | succ n =>
        simp [readAttr, lookupD, lazyClassEntries, lazy, getter, getterFinish, constFn,
          runPrepare_selfComposed]

/-- The tail of `getter` never yields the descriptor itself: returning
`self` happens only in the `cls is None` branch, before `getterFinish`. -/
theorem getterFinish_ne_self (t : String) (p : Option Prepare) (fuel : Nat)
    (x : Option (Except PyErr Value × Option Dict × List String)) :
    getterFinish t p fuel x ≠ some GetOut.self := by
  match x with
  | none => simp [getterFinish]
  | some (Except.error e, o2, log) => simp [getterFinish]
  | some (Except.ok v, o2, log) =>
      cases h : runPrepare p fuel v with
      | none => simp [getterFinish, h]
      | some r =>
          cases r with
          | error e => simp [getterFinish, h]
          | ok w =>
              by_cases hw : w = VOLATILE
              · simp [getterFinish, h, hw]
              · cases o2 <;> simp [getterFinish, h, hw]

/-- Whenever the descriptor protocol passes a class argument — which it does
both for instance access (`__get__(obj, cls)`) and for class access
(`__get__(None, cls)`) — `getter` cannot return the descriptor itself. -/
theorem getter_ne_self (clsD : ClassDict) (fuel : Nat) (d : Descr) (obj : Option Dict) :
    getter clsD fuel d obj (some ()) ≠ some GetOut.self := by
  cases fuel with
  | zero => simp [getter]
  | succ n => exact getterFinish_ne_self d.target d.prepare n _

/-- C8: reading the lazy attribute on the class itself.  Python's
`type.__getattribute__` calls `__get__(None, cls)`, so `getter`'s `cls is
None` test fails and the `else` branch runs: on `class MyClass: @lazy def
x(self): return 'x'`, the class-level read invokes the producing function
(invocation log `['x']`) and then `setattr(None, 'x', ...)` raises
`AttributeError` — it does not return the descriptor, and no fuel ever
makes any class-level read of this attribute return the descriptor. -/
theorem C8_class_read_computes_and_raises :
    classReadAttr (lazyClassEntries (constFn "x" (Value.str "x")) {}) 2 "x"
      = some (GetOut.res (Except.error (PyErr.attributeError (noneAttrMsg "x"))) none ["x"]) ∧
    ∀ fuel,
      classReadAttr (lazyClassEntries (constFn "x" (Value.str "x")) {}) fuel "x"
        ≠ some GetOut.self := by
  constructor
  · rfl
  · intro fuel
    have heq : classReadAttr (lazyClassEntries (constFn "x" (Value.str "x")) {}) fuel "x"
        = getter (lazyClassEntries (constFn "x" (Value.str "x")) {}) fuel
            ⟨"x", SrcSpec.direct (constFn "x" (Value.str "x")), none⟩ none (some ()) := rfl
    rw [heq]
    exact getter_ne_self _ fuel _ none

/-- C9 counterexample: the plain string `'VOLATILE'` is not the sentinel
object, yet Python `==` (inherited from `str` by the sentinel's class
`Singleton`) compares them equal — so the sentinel is not "unequal to every
ordinary produced value". -/
theorem C9_counterexample :
    Value.str "VOLATILE" ≠ VOLATILE ∧ pyEq VOLATILE (Value.str "VOLATILE") = true := by
  constructor
  · decide
  · rfl

/-- C9 amended: the sentinel is a distinct object rather than a distinct
equality class: the do-not-cache test in `getter` is the identity check
`is not`, so every produced value other than the sentinel object itself is
cached normally — but under ordinary `==` the sentinel does collide with
the legitimate string value `'VOLATILE'`. -/
theorem C9_sentinel_identity_not_equality (f : PyFunc) (obj : Dict) (v : Value) (fuel : Nat)
    (hfn : f.fn (some obj) = Except.ok v) (hv : v ≠ VOLATILE)
    (hfresh : lookupD obj f.name = none) :
    readAttr (lazyClassEntries f {}) (fuel + 1) obj f.name
      = some (Except.ok v, insertD obj f.name v, [f.name]) ∧
    pyEq VOLATILE (Value.str "VOLATILE") = true :=
  ⟨readAttr_default_direct f obj v fuel hfn hv hfresh, rfl⟩

/-- Witness for C9: the produced value `'VOLATILE'` (the plain string) is
not the sentinel object, so it is computed and cached like any value. -/
theorem C9_witness :
    readAttr (lazyClassEntries (constFn "x" (Value.str "VOLATILE")) {}) 1 [] "x"
      = some (Except.ok (Value.str "VOLATILE"), [("x", Value.str "VOLATILE")], ["x"]) ∧
    pyEq VOLATILE (Value.str "VOLATILE") = true :=
  C9_sentinel_identity_not_equality (constFn "x" (Value.str "VOLATILE")) [] (Value.str "VOLATILE")
    0 rfl (by decide) rfl

/-- With `method=True` and a target name that is absent or coincides with
the function's own name, `lazy` builds a descriptor whose source calls the
method named like the descriptor's own attribute. -/
theorem lazy_methodTrue_nondistinct (f : PyFunc) (a : LazyArgs)
    (hname : a.name = none ∨ a.name = some f.name) (hm : a.method = some MethodArg.isTrue)
    (hr : a.require = none) (hi : a.into = none) :
    lazy f a = ⟨f.name, SrcSpec.methodCall f.name, none⟩ := by
  rcases hname with h | h <;> simp [lazy, h, hm, hr, hi]

/-- Self-referential method indirection never returns: the `src` lookup of
the descriptor's own attribute name finds nothing on the instance, hits the
descriptor on the class, and re-enters `getter`, for any recursion budget. -/
theorem getter_selfMethod_diverges (f : PyFunc) (obj : Dict)
    (hfresh : lookupD obj f.name = none) :
    ∀ fuel,
      getter [(f.name, ClassAttr.descr ⟨f.name, SrcSpec.methodCall f.name, none⟩)] fuel
          ⟨f.name, SrcSpec.methodCall f.name, none⟩ (some obj) (some ()) = none := by
  intro fuel
  induction fuel with
  | zero => rfl
  | succ n ih => simp [getter, getterFinish, lookupD, hfresh, ih]

/-- C10: constructing a lazy attribute with `method=True` and no target name
distinct from the function's own name makes the target and the indirection
method share the descriptor's attribute name, so the first read on an
instance re-enters the descriptor and never produces a value: evaluation
returns no result at every recursion depth. -/
theorem C10_method_true_same_name_diverges (f : PyFunc) (a : LazyArgs) (obj : Dict) (fuel : Nat)
    (hname : a.name = none ∨ a.name = some f.name) (hm : a.method = some MethodArg.isTrue)
    (hr : a.require = none) (hi : a.into = none)
    (hfresh : lookupD obj f.name = none) :
    readAttr (lazyClassEntries f a) fuel obj f.name = none := by
  have hent : lazyClassEntries f a
      = [(f.name, ClassAttr.descr ⟨f.name, SrcSpec.methodCall f.name, none⟩)] := by
    simp [lazyClassEntries, lazy_methodTrue_nondistinct f a hname hm hr hi]
  rw [hent]
  simp [readAttr, hfresh, lookupD, getter_selfMethod_diverges f obj hfresh fuel]

/-- Witness for C10: `@lazy(method=True) def x(self)` read with a recursion
budget of five frames still yields nothing. -/
theorem C10_witness :
    readAttr (lazyClassEntries (constFn "x" (Value.int 0)) { method := some MethodArg.isTrue })
        5 [] "x" = none :=
  C10_method_true_same_name_diverges (constFn "x" (Value.int 0))
    { method := some MethodArg.isTrue } [] 5 (Or.inl rfl) rfl rfl rfl rfl

end Lazier
